import Mathlib

/-!
Verification of the yagb emulator core against its specification.

The definitions below are shallow embeddings of the TypeScript sources:
`src/emulator/bus.ts`, `src/emulator/instruction.ts`, `src/emulator/cpu.ts`,
`src/emulator/ppu.ts`, `src/emulator/cartridges/CartridgeMbc3.ts`.
JavaScript number semantics (32-bit signed bitwise operators, `Uint8Array`
truncation, truncated division) are modelled explicitly by the `js*` helpers.
-/

/-! ## JavaScript integer semantics -/

/-- The 32 low bits of an integer, as an unsigned value (JS `ToUint32`). -/
def toU32 (x : Int) : Nat := (x % 4294967296).toNat

/-- Reinterpret the 32 low bits of a natural as a signed 32-bit value (JS `ToInt32`). -/
def toI32 (n : Nat) : Int :=
  if n % 4294967296 < 2147483648 then ((n % 4294967296 : Nat) : Int)
  else ((n % 4294967296 : Nat) : Int) - 4294967296

/-- JS `ToUint8`: the value a `Uint8Array` element stores. -/
def toU8 (x : Int) : Nat := (x % 256).toNat

/-- JS `ToUint16`: the value a `Uint16Array` element stores. -/
def toU16 (x : Int) : Nat := (x % 65536).toNat

/-- JS bitwise `&` on numbers (operates on the 32-bit representations). -/
def jsAnd (a b : Int) : Int := toI32 (Nat.land (toU32 a) (toU32 b))

/-- JS bitwise `|` on numbers. -/
def jsOr (a b : Int) : Int := toI32 (Nat.lor (toU32 a) (toU32 b))

/-- JS bitwise `~` on numbers. -/
def jsNot (a : Int) : Int := toI32 (Nat.xor (toU32 a) 4294967295)

/-- JS `>>>` (unsigned right shift); the result is non-negative. -/
def jsShru (a : Int) (n : Nat) : Int := ((toU32 a) >>> n : Nat)

/-! ## Bus (src/emulator/bus.ts) -/

namespace BusM

/-- State visible to bus handlers: the host break sink (modelled as a message
log) plus a stand-in memory for whatever components a handler may touch. -/
structure BusState where
  breakLog : List String
  mem : Nat → Nat

/-- `address.toString(16).padStart(4, '0')`. -/
def hexPad4 (n : Nat) : String :=
  let ds := Nat.toDigits 16 n
  String.mk (List.replicate (4 - ds.length) '0' ++ ds)

def ReadHandler : Type := Nat → BusState → BusState × Nat

def WriteHandler : Type := Nat → Nat → BusState → BusState

/-- `invalidRead`: calls `system.break` with a message naming the address and
returns 0. -/
def invalidRead : ReadHandler := fun address s =>
  ({ s with breakLog := s.breakLog ++ ["invalid read from 0x" ++ hexPad4 address] }, 0)

/-- `invalidWrite`: calls `system.break` with a message naming the address;
no other effect. -/
def invalidWrite : WriteHandler := fun address _value s =>
  { s with breakLog := s.breakLog ++ ["invalid write to 0x" ++ hexPad4 address] }

structure Bus where
  readMap : Nat → ReadHandler
  writeMap : Nat → WriteHandler

/-- The `Bus` constructor: every address of the 64 KiB map is initialised to
the invalid handlers. -/
def mkBus : Bus where
  readMap := fun _ => invalidRead
  writeMap := fun _ => invalidWrite

/-- Modelled from the spec: `read(a)` / `write(a, v)` dispatch to the installed
pair (the dispatch methods themselves are not in the source snapshot, only the
handler tables and the invalid handlers are). -/
def Bus.read (b : Bus) (a : Nat) (s : BusState) : BusState × Nat := b.readMap a a s

/-- Modelled from the spec: write dispatch, see `Bus.read`. -/
def Bus.write (b : Bus) (a v : Nat) (s : BusState) : BusState := b.writeMap a a v s

end BusM

/-! ## Theorems for claim C3 -/

/-- C3: every address with no installed handler pair (in a fresh bus, all
65536 of them) maps to the invalid handlers; a read of such an address passes
a message containing the offending address to the break sink and returns 0,
and a write passes a message to the break sink and leaves the rest of the
state (here the stand-in memory) unchanged. -/
theorem c3_unmapped_bus_access (a v : Nat) (s : BusM.BusState) (h : a < 0x10000) :
    BusM.mkBus.readMap a = BusM.invalidRead ∧
    BusM.mkBus.writeMap a = BusM.invalidWrite ∧
    BusM.Bus.read BusM.mkBus a s =
      ({ s with breakLog := s.breakLog ++ ["invalid read from 0x" ++ BusM.hexPad4 a] }, 0) ∧
    (BusM.Bus.read BusM.mkBus a s).1.mem = s.mem ∧
    BusM.Bus.write BusM.mkBus a v s =
      { s with breakLog := s.breakLog ++ ["invalid write to 0x" ++ BusM.hexPad4 a] } ∧
    (BusM.Bus.write BusM.mkBus a v s).mem = s.mem :=
  ⟨rfl, rfl, rfl, rfl, rfl, rfl⟩

/-- Witness for C3 at the concrete address 0x1234. -/
theorem c3_unmapped_bus_access_witness :
    (0x1234 : Nat) < 0x10000 ∧
      (BusM.Bus.read BusM.mkBus 0x1234 ⟨[], fun _ => 0⟩).2 = 0 :=
  ⟨by decide, by
    have h := c3_unmapped_bus_access 0x1234 0 ⟨[], fun _ => 0⟩ (by decide)
    rw [h.2.2.1]⟩

/-! ## Instruction table (src/emulator/instruction.ts) and CPU (src/emulator/cpu.ts) -/

namespace CpuM

/-- `Operation` enum of instruction.ts.  `ldh` is referenced by cpu.ts's
dispatch although absent from the enum in the table's snapshot; it is carried
here so the dispatch translates in full (no table entry uses it). -/
inductive Operation
  | invalid
  | and
  | call
  | cp
  | cpl
  | dec
  | di
  | ei
  | inc
  | jp
  | jrnz
  | ld
  | ldd
  | ldi
  | nop
  | or
  | pop
  | push
  | ret
  | xor
  | ldh
deriving DecidableEq

/-- `AddressingMode` enum of instruction.ts.  cpu.ts refers to the indirect
register mode as `ind_reg8`; it is the `ind8_reg8` constructor here. -/
inductive AddressingMode
  | implicit
  | imm16
  | imm8
  | reg8
  | reg16
  | reg16_imm16
  | reg8_imm8
  | imm8_reg8
  | immind8_reg8
  | ind8_reg8
  | ind8_imm8
  | reg8_ind8
  | reg8_reg8
  | imm8io_reg8
  | reg8_imm8io
  | reg8io_reg8
  | reg8_reg8io
deriving DecidableEq

structure Instruction where
  opcode : Nat
  operation : Operation
  addressingMode : AddressingMode
  par1 : Nat
  par2 : Nat
  cycles : Nat
  len : Nat
deriving DecidableEq

/-- `Partial<Instruction>` as used by `apply`. -/
structure InstrPatch where
  operation : Option Operation := none
  addressingMode : Option AddressingMode := none
  par1 : Option Nat := none
  par2 : Option Nat := none
  cycles : Option Nat := none
  len : Option Nat := none

/-- Register indices of the `r8` enum (low/high bytes of the 16-bit pairs). -/
def r8f : Nat := 0
def r8a : Nat := 1
def r8c : Nat := 2
def r8b : Nat := 3
def r8e : Nat := 4
def r8d : Nat := 5
def r8l : Nat := 6
def r8h : Nat := 7

/-- Register indices of the `r16` enum. -/
def r16af : Nat := 0
def r16bc : Nat := 1
def r16de : Nat := 2
def r16hl : Nat := 3
def r16sp : Nat := 4

/-- `apply(opcode, instruction)`: spread the existing entry, then the patch,
then pin `opcode`. -/
def applyP (t : Nat → Instruction) (opcode : Nat) (p : InstrPatch) : Nat → Instruction :=
  fun i =>
    if i = opcode then
      { opcode := opcode
        operation := p.operation.getD (t opcode).operation
        addressingMode := p.addressingMode.getD (t opcode).addressingMode
        par1 := p.par1.getD (t opcode).par1
        par2 := p.par2.getD (t opcode).par2
        cycles := p.cycles.getD (t opcode).cycles
        len := p.len.getD (t opcode).len }
    else t i

/-- `applySeriesR8_1(baseB, baseC, instruction)`. -/
def applySeriesR8_1 (t0 : Nat → Instruction) (baseB baseC : Nat) (p : InstrPatch) :
    Nat → Instruction :=
  let t1 := ([r8b, r8d, r8h].enum).foldl
    (fun t ir => applyP t (baseB + (ir.1 <<< 4)) { p with par1 := some ir.2 }) t0
  ([r8c, r8e, r8l, r8a].enum).foldl
    (fun t ir => applyP t (baseC + (ir.1 <<< 4)) { p with par1 := some ir.2 }) t1

/-- Every entry starts out `invalid` with `len` 1. -/
def instructionsBase : Nat → Instruction := fun i =>
  { opcode := i, operation := .invalid, addressingMode := .implicit,
    par1 := 0, par2 := 0, cycles := 0, len := 1 }

/-- The instruction table, built by the same sequence of `apply` calls as the
source (bottom of instruction.ts).  Fields the source omits keep their
defaults; in particular the immediate-operand entries leave `par1`/`par2` 0. -/
def instructions : Nat → Instruction :=
  let t := instructionsBase
  let t := applyP t 0x00 { operation := some .nop, cycles := some 1, len := some 1 }
  let t := applyP t 0xc3 { operation := some .jp, addressingMode := some .imm16, cycles := some 4, len := some 3 }
  let t := applyP t 0xa8 { operation := some .xor, addressingMode := some .reg8, par1 := some r8b, cycles := some 1, len := some 1 }
  let t := applyP t 0xa9 { operation := some .xor, addressingMode := some .reg8, par1 := some r8c, cycles := some 1, len := some 1 }
  let t := applyP t 0xaa { operation := some .xor, addressingMode := some .reg8, par1 := some r8d, cycles := some 1, len := some 1 }
  let t := applyP t 0xab { operation := some .xor, addressingMode := some .reg8, par1 := some r8e, cycles := some 1, len := some 1 }
  let t := applyP t 0xac { operation := some .xor, addressingMode := some .reg8, par1 := some r8h, cycles := some 1, len := some 1 }
  let t := applyP t 0xad { operation := some .xor, addressingMode := some .reg8, par1 := some r8l, cycles := some 1, len := some 1 }
  let t := applyP t 0xaf { operation := some .xor, addressingMode := some .reg8, par1 := some r8a, cycles := some 1, len := some 1 }
  let t := applyP t 0x31 { operation := some .ld, addressingMode := some .reg16_imm16, par1 := some r16sp, cycles := some 3, len := some 3 }
  let t := applyP t 0x21 { operation := some .ld, addressingMode := some .reg16_imm16, par1 := some r16hl, cycles := some 3, len := some 3 }
  let t := applyP t 0x11 { operation := some .ld, addressingMode := some .reg16_imm16, par1 := some r16de, cycles := some 3, len := some 3 }
  let t := applyP t 0x01 { operation := some .ld, addressingMode := some .reg16_imm16, par1 := some r16bc, cycles := some 3, len := some 3 }
  let t := applyP t 0x36 { operation := some .ld, addressingMode := some .ind8_imm8, par1 := some r16hl, cycles := some 3, len := some 2 }
  let t := applyP t 0xea { operation := some .ld, addressingMode := some .immind8_reg8, par2 := some r8a, cycles := some 4, len := some 3 }
  let t := applyP t 0xf0 { operation := some .ld, addressingMode := some .reg8_imm8io, par1 := some r8a, cycles := some 3, len := some 2 }
  let t := applyP t 0xe0 { operation := some .ld, addressingMode := some .imm8io_reg8, par2 := some r8a, cycles := some 3, len := some 2 }
  let t := applyP t 0xe2 { operation := some .ld, addressingMode := some .reg8io_reg8, par1 := some r8c, cycles := some 2, len := some 1 }
  let t := applyP t 0xf2 { operation := some .ld, addressingMode := some .reg8_reg8io, par2 := some r8c, cycles := some 2, len := some 1 }
  let t := ([r8c, r8e, r8l, r8a].enum).foldl (fun t i1r =>
      ([r8a, r8b, r8c, r8d, r8e, r8h, r8l].enum).foldl (fun t i2r =>
        if i1r.2 ≠ i2r.2 then
          applyP t (((4 + i1r.1) <<< 4) ||| (7 + i2r.1))
            { operation := some .ld, addressingMode := some .reg8_reg8,
              par1 := some i1r.2, par2 := some i2r.2, cycles := some 1, len := some 1 }
        else t) t) t
  let t := applySeriesR8_1 t 0x06 0x0e { operation := some .ld, addressingMode := some .reg8_imm8, cycles := some 2, len := some 2 }
  let t := applyP t 0x22 { operation := some .ldi, addressingMode := some .ind8_reg8, par1 := some r16hl, par2 := some r8a, cycles := some 2, len := some 1 }
  let t := applyP t 0x32 { operation := some .ldd, addressingMode := some .ind8_reg8, par1 := some r16hl, par2 := some r8a, cycles := some 2, len := some 1 }
  let t := applyP t 0x2a { operation := some .ldi, addressingMode := some .reg8_ind8, par1 := some r8a, par2 := some r16hl, cycles := some 2, len := some 1 }
  let t := applyP t 0x3a { operation := some .ldd, addressingMode := some .reg8_ind8, par1 := some r8a, par2 := some r16hl, cycles := some 2, len := some 1 }
  let t := applySeriesR8_1 t 0x04 0x0c { operation := some .inc, addressingMode := some .reg8, cycles := some 1, len := some 1 }
  let t := applySeriesR8_1 t 0x05 0x0d { operation := some .dec, addressingMode := some .reg8, cycles := some 1, len := some 1 }
  let t := ([r16bc, r16de, r16hl, r16sp].enum).foldl (fun t ir =>
      let t := applyP t ((ir.1 <<< 4) ||| 0x0b)
        { operation := some .dec, addressingMode := some .reg16, par1 := some ir.2, cycles := some 2, len := some 1 }
      applyP t ((ir.1 <<< 4) ||| 0x03)
        { operation := some .inc, addressingMode := some .reg16, par1 := some ir.2, cycles := some 2, len := some 1 }) t
  let t := applyP t 0x20 { operation := some .jrnz, addressingMode := some .imm8, cycles := some 2, len := some 2 }
  let t := applyP t 0xf3 { operation := some .di, addressingMode := some .implicit, cycles := some 1, len := some 1 }
  let t := applyP t 0xfb { operation := some .ei, addressingMode := some .implicit, cycles := some 1, len := some 1 }
  let t := applyP t 0xfe { operation := some .cp, addressingMode := some .imm8, cycles := some 2, len := some 2 }
  let t := applyP t 0xcd { operation := some .call, addressingMode := some .imm16, cycles := some 8, len := some 3 }
  let t := ([r8b, r8c, r8d, r8e, r8h, r8l].enum).foldl (fun t ir =>
      let t := applyP t (0xb0 + ir.1)
        { operation := some .or, addressingMode := some .reg8, par1 := some ir.2, cycles := some 1, len := some 1 }
      applyP t (0xa0 + ir.1)
        { operation := some .and, addressingMode := some .reg8, par1 := some ir.2, cycles := some 1, len := some 1 }) t
  let t := applyP t 0xb7 { operation := some .or, addressingMode := some .reg8, par1 := some r8a, cycles := some 1, len := some 1 }
  let t := applyP t 0xa7 { operation := some .and, addressingMode := some .reg8, par1 := some r8a, cycles := some 1, len := some 1 }
  let t := applyP t 0xc9 { operation := some .ret, addressingMode := some .implicit, cycles := some 4, len := some 1 }
  let t := applyP t 0x2f { operation := some .cpl, addressingMode := some .implicit, cycles := some 1, len := some 1 }
  let t := ([r16bc, r16de, r16hl, r16af].enum).foldl (fun t ir =>
      let t := applyP t (((ir.1 + 0xc) <<< 4) ||| 0x05)
        { operation := some .push, addressingMode := some .reg16, par1 := some ir.2, cycles := some 4, len := some 1 }
      applyP t (((ir.1 + 0xc) <<< 4) ||| 0x01)
        { operation := some .pop, addressingMode := some .reg16, par1 := some ir.2, cycles := some 3, len := some 1 }) t
  t

/-- CPU state (cpu.ts): the register file is a `Uint16Array` of five pairs
with a `Uint8Array` view over the same buffer (little-endian host), so each
16-bit pair is stored once and byte accessors split it.  The test harness
maps 0x0000..0x7FFF to a flat `Uint8Array`; the bus is modelled accordingly
as a byte memory, plus the break-sink log and the cycle counter fed to
`clock.increment`. -/
structure Cpu where
  af : Nat
  bc : Nat
  de : Nat
  hl : Nat
  sp : Nat
  p : Nat
  enableInterrupts : Bool
  mem : Nat → Nat
  clock : Nat
  breakLog : List String

/-- Byte view `r8[i]` of the shared register buffer. -/
def getR8 (c : Cpu) (i : Nat) : Nat :=
  if i = 0 then c.af % 256 else if i = 1 then c.af / 256 % 256
  else if i = 2 then c.bc % 256 else if i = 3 then c.bc / 256 % 256
  else if i = 4 then c.de % 256 else if i = 5 then c.de / 256 % 256
  else if i = 6 then c.hl % 256 else if i = 7 then c.hl / 256 % 256
  else if i = 8 then c.sp % 256 else if i = 9 then c.sp / 256 % 256
  else 0

/-- Write through the byte view (stores `ToUint8` of the value). -/
def setR8 (c : Cpu) (i : Nat) (v : Int) : Cpu :=
  let b := toU8 v
  if i = 0 then { c with af := c.af / 256 % 256 * 256 + b }
  else if i = 1 then { c with af := b * 256 + c.af % 256 }
  else if i = 2 then { c with bc := c.bc / 256 % 256 * 256 + b }
  else if i = 3 then { c with bc := b * 256 + c.bc % 256 }
  else if i = 4 then { c with de := c.de / 256 % 256 * 256 + b }
  else if i = 5 then { c with de := b * 256 + c.de % 256 }
  else if i = 6 then { c with hl := c.hl / 256 % 256 * 256 + b }
  else if i = 7 then { c with hl := b * 256 + c.hl % 256 }
  else if i = 8 then { c with sp := c.sp / 256 % 256 * 256 + b }
  else if i = 9 then { c with sp := b * 256 + c.sp % 256 }
  else c

/-- Word view `r16[i]`. -/
def getR16 (c : Cpu) (i : Nat) : Nat :=
  if i = 0 then c.af else if i = 1 then c.bc else if i = 2 then c.de
  else if i = 3 then c.hl else if i = 4 then c.sp else 0

/-- Write through the word view (stores `ToUint16` of the value). -/
def setR16 (c : Cpu) (i : Nat) (v : Int) : Cpu :=
  let w := toU16 v
  if i = 0 then { c with af := w } else if i = 1 then { c with bc := w }
  else if i = 2 then { c with de := w } else if i = 3 then { c with hl := w }
  else if i = 4 then { c with sp := w } else c

/-- `bus.read` through the test environment's byte-memory handler. -/
def busRead (c : Cpu) (a : Nat) : Nat := c.mem a % 256

/-- `bus.write` through the test environment's byte-memory handler. -/
def busWrite (c : Cpu) (a v : Nat) : Cpu :=
  { c with mem := fun i => if i = a then v % 256 else c.mem i }

/-- Modelled from the spec: `read16(a)` reads little-endian from `a`, `a+1`
with 16-bit wrap (the `read16` method body is not in the bus snapshot). -/
def read16 (c : Cpu) (a : Nat) : Nat :=
  busRead c a ||| (busRead c ((a + 1) % 0x10000) <<< 8)

def extendSign8 (x : Nat) : Int :=
  if x &&& 0x80 ≠ 0 then -(((jsNot x) + 1) % 256) else (x : Int)

/-- `Cpu.getArg1`. -/
def getArg1 (c : Cpu) (instr : Instruction) : Except String Nat :=
  match instr.addressingMode with
  | .imm8 => .ok (busRead c ((c.p + instr.par1) % 0x10000))
  | .imm8_reg8 => .ok (busRead c ((c.p + instr.par1) % 0x10000))
  | .imm16 => .ok (read16 c ((c.p + instr.par1) % 0x10000))
  | .reg8 => .ok (getR8 c instr.par1)
  | .reg16_imm16 => .ok (getR16 c instr.par1)
  | .reg8_imm8 => .ok (getR8 c instr.par1)
  | .ind8_reg8 => .ok (busRead c (getR16 c instr.par1))
  | _ => .error "bad addressing mode"

/-- `Cpu.setArg1`. -/
def setArg1 (c : Cpu) (instr : Instruction) (v : Int) : Except String Cpu :=
  match instr.addressingMode with
  | .reg8 => .ok (setR8 c instr.par1 v)
  | .reg16_imm16 => .ok (setR16 c instr.par1 v)
  | .reg8_imm8 => .ok (setR8 c instr.par1 v)
  | .ind8_reg8 => .ok (busWrite c (getR16 c instr.par1) (toU8 v))
  | _ => .error "bad addressing mode"

/-- `Cpu.getArg2`. -/
def getArg2 (c : Cpu) (instr : Instruction) : Except String Nat :=
  match instr.addressingMode with
  | .reg16_imm16 => .ok (read16 c ((c.p + instr.par2) % 0x10000))
  | .reg8_imm8 => .ok (busRead c ((c.p + instr.par2) % 0x10000))
  | .ind8_reg8 => .ok (getR8 c instr.par2)
  | .imm8_reg8 => .ok (getR8 c instr.par2)
  | _ => .error "bad addressing mode"

/-- `Cpu.dispatch`.  Returns the updated state and the cycle count the source
returns; `system.break` is a log entry, a thrown `Error` is `Except.error`. -/
def dispatch (c0 : Cpu) (instr : Instruction) : Except String (Cpu × Nat) :=
  match instr.operation with
  | .dec => do
    let c := { c0 with clock := c0.clock + instr.cycles }
    let operand ← getArg1 c instr
    let result : Int := (operand : Int) - 1
    let c ← setArg1 c instr result
    let f := (getR8 c 0 &&& 0x10) ||| 0x40
      ||| (if result % 256 = 0 then 0x80 else 0)
      ||| (if 0 < jsAnd (((operand &&& 0x0f : Nat) : Int) - 1) 0xf0 then 0x20 else 0)
    let c := setR8 c 0 (f : Int)
    let c := { c with p := (c.p + instr.len) % 0x10000 }
    return (c, instr.cycles)
  | .di =>
    let c := { c0 with clock := c0.clock + instr.cycles }
    let c := { c with enableInterrupts := false }
    let c := { c with p := (c.p + instr.len) % 0x10000 }
    .ok (c, instr.cycles)
  | .inc => do
    let c := { c0 with clock := c0.clock + instr.cycles }
    let operand ← getArg1 c instr
    let result : Int := (operand : Int) + 1
    let c ← setArg1 c instr result
    let f := (getR8 c 0 &&& 0x10)
      ||| (if result % 256 = 0 then 0x80 else 0)
      ||| (if 0 < (((operand &&& 0x0f) + 1) &&& 0xf0 : Nat) then 0x20 else 0)
    let c := setR8 c 0 (f : Int)
    let c := { c with p := (c.p + instr.len) % 0x10000 }
    return (c, instr.cycles)
  | .jp => do
    let c := { c0 with clock := c0.clock + instr.cycles }
    let a1 ← getArg1 c instr
    let c := { c with p := a1 }
    return (c, instr.cycles)
  | .jrnz => do
    let condition := getR8 c0 0 &&& 0x80 = 0
    let cycles := instr.cycles + (if condition then 1 else 0)
    let c := { c0 with clock := c0.clock + cycles }
    let a1 ← getArg1 c instr
    let displacement := extendSign8 a1
    let c := { c with p := (c.p + instr.len) % 0x10000 }
    let c := if condition then { c with p := toU16 ((c.p : Int) + displacement) } else c
    return (c, cycles)
  | .ld => do
    let c := { c0 with clock := c0.clock + instr.cycles }
    let v ← getArg2 c instr
    let c ← setArg1 c instr (v : Int)
    let c := { c with p := (c.p + instr.len) % 0x10000 }
    return (c, instr.cycles)
  | .ldd => do
    let c := { c0 with clock := c0.clock + instr.cycles }
    let v ← getArg2 c instr
    let c ← setArg1 c instr (v : Int)
    let c := { c with hl := toU16 ((c.hl : Int) - 1) }
    let c := { c with p := (c.p + instr.len) % 0x10000 }
    return (c, instr.cycles)
  | .ldh => do
    let c := { c0 with clock := c0.clock + instr.cycles }
    let a1 ← getArg1 c instr
    let a2 ← getArg2 c instr
    let c := busWrite c ((0xff00 + a1) % 0x10000) a2
    let c := { c with p := (c.p + instr.len) % 0x10000 }
    return (c, instr.cycles)
  | .ldi => do
    let c := { c0 with clock := c0.clock + instr.cycles }
    let v ← getArg2 c instr
    let c ← setArg1 c instr (v : Int)
    let c := { c with hl := (c.hl + 1) % 0x10000 }
    let c := { c with p := (c.p + instr.len) % 0x10000 }
    return (c, instr.cycles)
  | .nop =>
    let c := { c0 with clock := c0.clock + instr.cycles }
    let c := { c with p := (c.p + instr.len) % 0x10000 }
    .ok (c, instr.cycles)
  | .xor => do
    let c := { c0 with clock := c0.clock + instr.cycles }
    let a1 ← getArg1 c instr
    let c := setR8 c 1 ((getR8 c 1 ^^^ a1 : Nat) : Int)
    let c := setR8 c 0 ((if getR8 c 1 ≠ 0 then 0 else 0x80 : Nat) : Int)
    let c := { c with p := (c.p + instr.len) % 0x10000 }
    return (c, instr.cycles)
  | _ =>
    .ok ({ c0 with breakLog := c0.breakLog ++ ["invalid instruction"] }, 0)

/-- `decodeInstruction(bus, address)`. -/
def decodeInstruction (c : Cpu) (address : Nat) : Instruction :=
  instructions (busRead c address)

/-- One iteration of `Cpu.step`. -/
def step1 (c : Cpu) : Except String Cpu :=
  match dispatch c (decodeInstruction c c.p) with
  | .ok r => .ok r.1
  | .error e => .error e

end CpuM

/-! ## Theorems for claim C2 -/

/-- Post-`reset` CPU whose memory holds `JP 0x1234` (bytes C3 34 12) at
0x0100. -/
def c2cpu : CpuM.Cpu :=
  { af := 0x0100, bc := 0x0013, de := 0x00d8, hl := 0x014d, sp := 0xfffe,
    p := 0x0100, enableInterrupts := false,
    mem := fun a => if a = 0x100 then 0xc3 else if a = 0x101 then 0x34
      else if a = 0x102 then 0x12 else 0,
    clock := 0, breakLog := [] }

/-- C2 fails on the code: the table entry for `JP a16` (0xC3) leaves `par1` at
its default 0, so `getArg1` reads the 16-bit word at PC itself — low byte the
opcode 0xC3, high byte the first immediate 0x34 — and `step(1)` sets PC to
0x34C3 instead of the little-endian immediate 0x1234 following the opcode. -/
theorem c2_jp_target_reads_word_at_pc :
    (CpuM.step1 c2cpu).map CpuM.Cpu.p = Except.ok 0x34c3 ∧ (0x34c3 : Nat) ≠ 0x1234 := by
  constructor
  · rfl
  · decide

/-! ## Interrupt dispatch (claim C1)

The CPU version that services interrupts is not part of the source snapshot —
only its test suite is (the `interrupt dispatch` describe block).  The
servicing step is therefore modelled from the spec. -/

namespace IntM

/-- CPU-and-interrupt-controller state as seen by the interrupt dispatch:
PC, SP, IME, the IE and IF registers, the bus memory, and the clock counter
in M-cycles. -/
structure IState where
  p : Nat
  sp : Nat
  ime : Bool
  ie : Nat
  ifr : Nat
  mem : Nat → Nat
  clockM : Nat

/-- Index of the lowest set bit among bits 0..4 (the kind of the pending
interrupt: 0=vblank, 1=stat, 2=timer, 3=serial, 4=joypad). -/
def lowestIrq (m : Nat) : Nat :=
  if m &&& 0x01 ≠ 0 then 0
  else if m &&& 0x02 ≠ 0 then 1
  else if m &&& 0x04 ≠ 0 then 2
  else if m &&& 0x08 ≠ 0 then 3
  else 4

/-- Modelled from the spec: `pending()` returns the lowest-numbered bit set in
IE & IF & 0x1F, or none. -/
def pending (s : IState) : Option Nat :=
  let m := s.ie &&& s.ifr &&& 0x1f
  if m = 0 then none else some (lowestIrq m)

/-- Modelled from the spec: service interrupt kind `k` — clear IME, clear the
serviced bit in IF, push PC (high byte to SP-1, low byte to SP-2), set PC to
the vector 0x40 + 8·k, consume 5 M-cycles. -/
def serviceInterrupt (s : IState) (k : Nat) : IState :=
  let sp1 := (s.sp + 0xffff) % 0x10000
  let sp2 := (s.sp + 0xfffe) % 0x10000
  { s with
    ime := false
    ifr := s.ifr &&& (0xff ^^^ (1 <<< k))
    mem := fun a => if a = sp2 then s.p % 256 else if a = sp1 then s.p / 256 % 256 else s.mem a
    sp := sp2
    p := 0x40 + 8 * k
    clockM := s.clockM + 5 }

/-- Modelled from the spec: one CPU step — if IME is set and an interrupt is
pending, service it; otherwise decode and dispatch the instruction at PC
(abstracted as the `instrDispatch` parameter). -/
def istep (instrDispatch : IState → IState) (s : IState) : IState :=
  match s.ime, pending s with
  | true, some k => serviceInterrupt s k
  | _, _ => instrDispatch s

end IntM

/-- C1: whenever IME is true and IE & IF & 0x1F is non-zero, a step services
the highest-priority (lowest-numbered) pending interrupt instead of
dispatching an instruction: IME is cleared, the serviced bit is cleared in IF,
the PC high byte is written to SP-1 and the low byte to SP-2, SP drops by two,
PC becomes the vector 0x40 + 8·kind (0x40/0x48/0x50/0x58/0x60 for
vblank/stat/timer/serial/joypad), and the clock advances by 5 M-cycles; the
serviced kind has no lower-numbered bit pending. -/
theorem c1_interrupt_service (instrDispatch : IntM.IState → IntM.IState)
    (s : IntM.IState) (h1 : s.ime = true) (h2 : s.ie &&& s.ifr &&& 0x1f ≠ 0) :
    IntM.istep instrDispatch s =
      IntM.serviceInterrupt s (IntM.lowestIrq (s.ie &&& s.ifr &&& 0x1f)) ∧
    (IntM.istep instrDispatch s).ime = false ∧
    (IntM.istep instrDispatch s).ifr =
      s.ifr &&& (0xff ^^^ (1 <<< IntM.lowestIrq (s.ie &&& s.ifr &&& 0x1f))) ∧
    (IntM.istep instrDispatch s).sp = (s.sp + 0xfffe) % 0x10000 ∧
    (IntM.istep instrDispatch s).mem ((s.sp + 0xffff) % 0x10000) = s.p / 256 % 256 ∧
    (IntM.istep instrDispatch s).mem ((s.sp + 0xfffe) % 0x10000) = s.p % 256 ∧
    (IntM.istep instrDispatch s).p = 0x40 + 8 * IntM.lowestIrq (s.ie &&& s.ifr &&& 0x1f) ∧
    (IntM.istep instrDispatch s).clockM = s.clockM + 5 ∧
    (s.ie &&& s.ifr &&& 0x1f) &&& ((1 <<< IntM.lowestIrq (s.ie &&& s.ifr &&& 0x1f)) - 1) = 0 ∧
    (s.ie &&& s.ifr &&& 0x1f) &&& (1 <<< IntM.lowestIrq (s.ie &&& s.ifr &&& 0x1f)) ≠ 0 := by
  have hstep : IntM.istep instrDispatch s =
      IntM.serviceInterrupt s (IntM.lowestIrq (s.ie &&& s.ifr &&& 0x1f)) := by
    unfold IntM.istep IntM.pending
    rw [h1]
    simp only [if_neg h2]
  have hne : (s.sp + 0xffff) % 0x10000 ≠ (s.sp + 0xfffe) % 0x10000 := by omega
  have hm : s.ie &&& s.ifr &&& 0x1f < 32 :=
    Nat.lt_of_le_of_lt Nat.and_le_right (by norm_num)
  have hprio :
      (s.ie &&& s.ifr &&& 0x1f) &&& ((1 <<< IntM.lowestIrq (s.ie &&& s.ifr &&& 0x1f)) - 1) = 0 ∧
      (s.ie &&& s.ifr &&& 0x1f) &&& (1 <<< IntM.lowestIrq (s.ie &&& s.ifr &&& 0x1f)) ≠ 0 := by
    set m := s.ie &&& s.ifr &&& 0x1f with hmdef
    clear_value m
    interval_cases m
    · exact absurd rfl h2
    all_goals exact ⟨by decide, by decide⟩
  refine ⟨hstep, ?_, ?_, ?_, ?_, ?_, ?_, ?_, hprio.1, hprio.2⟩ <;> rw [hstep]
  · rfl
  · rfl
  · rfl
  · simp only [IntM.serviceInterrupt]
    simp [hne]
  · simp only [IntM.serviceInterrupt]
    simp
  · rfl
  · rfl

/-- Concrete interrupt state for the C1 witness: IME on, IE = 0x1F,
IF = timer (0x04), PC = 0x0100, SP = 0x1000. -/
def c1state : IntM.IState :=
  { p := 0x0100, sp := 0x1000, ime := true, ie := 0x1f, ifr := 0x04,
    mem := fun _ => 0, clockM := 0 }

/-- Witness for C1: servicing the pending timer interrupt jumps to 0x50,
clears IF, and pushes 0x01 0x00. -/
theorem c1_interrupt_service_witness :
    (IntM.istep (fun s => s) c1state).p = 0x50 ∧
    (IntM.istep (fun s => s) c1state).ifr = 0 ∧
    (IntM.istep (fun s => s) c1state).mem 0x0fff = 0x01 ∧
    (IntM.istep (fun s => s) c1state).mem 0x0ffe = 0x00 ∧
    (IntM.istep (fun s => s) c1state).sp = 0x0ffe ∧
    (IntM.istep (fun s => s) c1state).ime = false ∧
    (IntM.istep (fun s => s) c1state).clockM = 5 := by
  have h := c1_interrupt_service (fun s => s) c1state rfl (by decide)
  refine ⟨?_, ?_, ?_, ?_, ?_, ?_, ?_⟩
  · rw [h.2.2.2.2.2.2.1]
    decide
  · rw [h.2.2.1]
    decide
  · have := h.2.2.2.2.1
    simpa using this
  · have := h.2.2.2.2.2.1
    simpa using this
  · rw [h.2.2.2.1]
    decide
  · rw [h.2.1]
  · rw [h.2.2.2.2.2.2.2.1]
    decide

/-! ## PPU (src/emulator/ppu.ts) -/

namespace PpuM

/-- `ppuMode` enum: hblank=0, vblank=1, oamScan=2, draw=3. -/
inductive Mode
  | hblank
  | vblank
  | oamScan
  | draw
deriving DecidableEq

/-- PPU state.  The pixel pipeline (`renderLine`, palettes, the two
framebuffers) only writes the back framebuffer and is not modelled; the
`frame` counter and the front/back swap bookkeeping that the state machine
drives are.  `busLocked` models the `bus.lock()` / `bus.unlock()` calls, and
the two `Irqs` counters count the `interrupt.raise` calls. -/
structure Ppu where
  clockInMode : Nat
  scanline : Nat
  frame : Int
  mode : Mode
  skipFrame : Bool
  vram : Nat → Nat
  oam : Nat → Nat
  statLine : Bool
  dmaInProgress : Bool
  dmaCycle : Nat
  reg : Nat → Nat
  busLocked : Bool
  vblankIrqs : Nat
  statIrqs : Nat

/-- Register indices relative to 0xFF40: lcdc=0, stat=1, scy=2, scx=3, ly=4,
lyc=5, dma=6, bgp=7, obp0=8, obp1=9, wy=10, wx=11. -/
def rLcdc : Nat := 0
def rStat : Nat := 1
def rLyc : Nat := 5
def rDma : Nat := 6

/-- `Ppu.reset`. -/
def resetPpu : Ppu where
  clockInMode := 0
  scanline := 0
  frame := 0
  mode := .oamScan
  skipFrame := false
  vram := fun _ => 0
  oam := fun _ => 0
  statLine := false
  dmaInProgress := false
  dmaCycle := 0
  reg := fun i => if i = 0 then 0x80 else 0
  busLocked := false
  vblankIrqs := 0
  statIrqs := 0

/-- `swapBuffers` (the buffer pointer swap itself is not modelled; the frame
counter increment `(frame + 1) | 0` is). -/
def swapBuffers (s : Ppu) : Ppu :=
  { s with frame := toI32 (toU32 (s.frame + 1)) }

/-- `Ppu.consumeClocks`: returns the new state and the number of clocks
consumed. -/
def consumeClocks (s : Ppu) (clocks : Nat) : Ppu × Nat :=
  match s.mode with
  | .oamScan =>
    if clocks + s.clockInMode ≥ 80 then
      ({ s with mode := .draw, clockInMode := 0 }, 80 - s.clockInMode)
    else
      ({ s with clockInMode := s.clockInMode + clocks }, clocks)
  | .draw =>
    if clocks + s.clockInMode ≥ 172 then
      ({ s with mode := .hblank, clockInMode := 0 }, 172 - s.clockInMode)
    else
      ({ s with clockInMode := s.clockInMode + clocks }, clocks)
  | .hblank =>
    if clocks + s.clockInMode ≥ 204 then
      let consumed := 204 - s.clockInMode
      let s := { s with scanline := s.scanline + 1 }
      let s :=
        if s.scanline = 144 then
          { s with mode := .vblank, vblankIrqs := s.vblankIrqs + 1 }
        else
          { s with mode := .oamScan }
      ({ s with clockInMode := 0 }, consumed)
    else
      ({ s with clockInMode := s.clockInMode + clocks }, clocks)
  | .vblank =>
    if clocks + s.clockInMode ≥ 4560 then
      let consumed := 4560 - s.clockInMode
      let s := { s with mode := .oamScan, clockInMode := 0, scanline := 0 }
      let s := if s.skipFrame then s else swapBuffers s
      ({ s with skipFrame := false }, consumed)
    else
      let s := { s with clockInMode := s.clockInMode + clocks }
      ({ s with scanline := 144 + s.clockInMode / 456 }, clocks)

/-- `Ppu.updateStat`: recompute the STAT line and raise `stat` on its rising
edge. -/
def updateStat (s : Ppu) : Ppu :=
  let oldStat := s.statLine
  let statval := s.reg 1
  let line :=
    (s.reg 0 &&& 0x80 != 0) &&
      (((statval &&& 0x40 != 0) && (s.scanline == s.reg 5)) ||
        ((statval &&& 0x20 != 0) && (s.mode == Mode.oamScan)) ||
        ((statval &&& 0x10 != 0) && (s.mode == Mode.vblank)) ||
        ((statval &&& 0x08 != 0) && (s.mode == Mode.hblank)))
  let s := { s with statLine := line }
  if line && !oldStat && (s.reg 0 &&& 0x80 != 0) then
    { s with statIrqs := s.statIrqs + 1 }
  else s

/-- `Ppu.executeDma`: unlock the bus, end the transfer, and copy 160 bytes
from `(reg[dma] % 0xe0) << 8` into OAM in one go. -/
def executeDma (busMem : Nat → Nat) (s : Ppu) : Ppu :=
  let s := { s with busLocked := false, dmaInProgress := false, dmaCycle := 0 }
  let base := (s.reg 6 % 0xe0) <<< 8
  { s with oam := fun i => if i < 160 then busMem (base + i) % 256 else s.oam i }

/-- The DMA while-loop at the head of `Ppu.cycle`; the argument is the
remaining `systemClocks`, which the loop decrements, and the unconsumed rest
is returned. -/
def dmaLoop (busMem : Nat → Nat) (s : Ppu) : Nat → Ppu × Nat
  | 0 => (s, 0)
  | n + 1 =>
    if s.dmaInProgress then
      let s := { s with dmaCycle := s.dmaCycle + 1 }
      let s := if s.dmaCycle > 640 then executeDma busMem s else s
      let s := if s.reg 0 &&& 0x80 ≠ 0 then (consumeClocks s 1).1 else s
      dmaLoop busMem s n
    else (s, n + 1)

/-- The main while-loop of `Ppu.cycle`.  In the source it terminates because
`consumeClocks` always consumes at least one clock from a reachable state;
here the remaining clock count doubles as fuel. -/
def cycleLoop (fuel : Nat) (s : Ppu) (remaining : Nat) : Ppu :=
  match fuel with
  | 0 => s
  | fuel + 1 =>
    if remaining = 0 then s
    else
      let r := consumeClocks s remaining
      let s := updateStat r.1
      cycleLoop fuel s (remaining - r.2)

/-- `Ppu.cycle(systemClocks)`. -/
def cycle (busMem : Nat → Nat) (s : Ppu) (systemClocks : Nat) : Ppu :=
  let r := dmaLoop busMem s systemClocks
  let s := r.1
  if s.reg 0 &&& 0x80 = 0 then s
  else cycleLoop r.2 s r.2

/-- `vramRead` handler (0x8000..0x9FFF). -/
def vramRead (s : Ppu) (address : Nat) : Nat :=
  if s.reg 0 &&& 0x80 = 0 ∨ s.mode ≠ .draw then s.vram (address &&& 0x1fff) else 0xff

/-- `vramWrite` handler. -/
def vramWrite (s : Ppu) (address value : Nat) : Ppu :=
  if s.reg 0 &&& 0x80 = 0 ∨ s.mode ≠ .draw then
    { s with vram := fun i => if i = address &&& 0x1fff then value % 256 else s.vram i }
  else s

/-- `oamRead` handler (0xFE00..0xFE9F). -/
def oamRead (s : Ppu) (address : Nat) : Nat :=
  if s.reg 0 &&& 0x80 = 0 ∨ (s.mode ≠ .draw ∧ s.mode ≠ .oamScan) then
    s.oam (address &&& 0xff)
  else 0xff

/-- `oamWrite` handler. -/
def oamWrite (s : Ppu) (address value : Nat) : Ppu :=
  if s.reg 0 &&& 0x80 = 0 ∨ (s.mode ≠ .draw ∧ s.mode ≠ .oamScan) then
    { s with oam := fun i => if i = address &&& 0xff then value % 256 else s.oam i }
  else s

/-- `dmaWrite` handler (0xFF46): store the register, restart the DMA counter,
and lock the bus. -/
def dmaWrite (s : Ppu) (value : Nat) : Ppu :=
  let s := { s with reg := fun i => if i = 6 then value % 256 else s.reg i }
  { s with dmaCycle := 0, dmaInProgress := true, busLocked := true }

/-- `lcdcWrite` handler (0xFF40).  The back-buffer blanking on disable is not
modelled (pixel data); the skip-frame flag and the swap are. -/
def lcdcWrite (s : Ppu) (value : Nat) : Ppu :=
  let oldValue := s.reg 0
  let s := { s with reg := fun i => if i = 0 then value % 256 else s.reg i }
  let s :=
    if toU32 (jsNot (oldValue : Int)) &&& s.reg 0 &&& 0x80 ≠ 0 then
      { s with skipFrame := true }
    else s
  if oldValue &&& toU32 (jsNot ((s.reg 0 : Nat) : Int)) &&& 0x80 ≠ 0 then
    swapBuffers s
  else s

end PpuM

/-! ## Theorems for claim C4 -/

set_option maxRecDepth 100000

/-- The PPU from reset (LCD enabled, DMA idle) after `n` PPU clocks. -/
def ppuRun (n : Nat) : PpuM.Ppu := PpuM.cycle (fun _ => 0) PpuM.resetPpu n

/-- C4: with the LCD enabled, each scanline is 80 clocks of OAM-scan, 172 of
Draw and 204 of HBlank (456 total; shown at the boundaries of line 0, of the
mid-frame line 71 starting at clock 32376, and of line 143); VBlank is entered
after the HBlank of scanline 143 (at clock 65664 = 144·456), raises the
vblank interrupt exactly then, lasts exactly 4560 clocks during which LY runs
144..153, and the machine restarts at LY=0 in OAM-scan after exactly
70224 clocks with the frame counter advanced once; a second frame repeats the
pattern (140448 = 2·70224) with exactly one more vblank raise. -/
theorem c4_ppu_frame_timing :
    ((ppuRun 79).mode = PpuM.Mode.oamScan ∧ (ppuRun 79).clockInMode = 79) ∧
    ((ppuRun 80).mode = PpuM.Mode.draw ∧ (ppuRun 80).clockInMode = 0) ∧
    ((ppuRun 251).mode = PpuM.Mode.draw ∧ (ppuRun 251).clockInMode = 171) ∧
    ((ppuRun 252).mode = PpuM.Mode.hblank ∧ (ppuRun 252).clockInMode = 0) ∧
    ((ppuRun 455).mode = PpuM.Mode.hblank ∧ (ppuRun 455).clockInMode = 203 ∧
      (ppuRun 455).scanline = 0) ∧
    ((ppuRun 456).mode = PpuM.Mode.oamScan ∧ (ppuRun 456).clockInMode = 0 ∧
      (ppuRun 456).scanline = 1) ∧
    ((ppuRun 32455).mode = PpuM.Mode.oamScan ∧ (ppuRun 32455).scanline = 71) ∧
    ((ppuRun 32456).mode = PpuM.Mode.draw ∧ (ppuRun 32456).scanline = 71) ∧
    ((ppuRun 65663).mode = PpuM.Mode.hblank ∧ (ppuRun 65663).scanline = 143 ∧
      (ppuRun 65663).vblankIrqs = 0) ∧
    ((ppuRun 65664).mode = PpuM.Mode.vblank ∧ (ppuRun 65664).clockInMode = 0 ∧
      (ppuRun 65664).scanline = 144 ∧ (ppuRun 65664).vblankIrqs = 1) ∧
    ((ppuRun 66120).scanline = 145 ∧ (ppuRun 66576).scanline = 146 ∧
      (ppuRun 67032).scanline = 147 ∧ (ppuRun 67488).scanline = 148 ∧
      (ppuRun 67944).scanline = 149 ∧ (ppuRun 68400).scanline = 150 ∧
      (ppuRun 68856).scanline = 151 ∧ (ppuRun 69312).scanline = 152 ∧
      (ppuRun 69768).scanline = 153) ∧
    ((ppuRun 70223).mode = PpuM.Mode.vblank ∧ (ppuRun 70223).clockInMode = 4559 ∧
      (ppuRun 70223).scanline = 153 ∧ (ppuRun 70223).vblankIrqs = 1) ∧
    ((ppuRun 70224).mode = PpuM.Mode.oamScan ∧ (ppuRun 70224).clockInMode = 0 ∧
      (ppuRun 70224).scanline = 0 ∧ (ppuRun 70224).frame = 1 ∧
      (ppuRun 70224).vblankIrqs = 1 ∧ (ppuRun 70224).skipFrame = false) ∧
    ((ppuRun 140448).mode = PpuM.Mode.oamScan ∧ (ppuRun 140448).clockInMode = 0 ∧
      (ppuRun 140448).scanline = 0 ∧ (ppuRun 140448).frame = 2 ∧
      (ppuRun 140448).vblankIrqs = 2) := by
  decide

/-! ## Theorems for claim C5 -/

/-- C5: while the LCD is enabled, VRAM reads (0x8000..0x9FFF) return 0xFF in
Draw mode, and OAM reads (0xFE00..0xFE9F) return 0xFF in Draw and OAM-scan
modes; in every other mode, and always when the LCD is disabled, reads return
the stored byte and writes store the byte. -/
theorem c5_vram_oam_mode_blocking (s : PpuM.Ppu) (a b v w : Nat)
    (ha1 : 0x8000 ≤ a) (ha2 : a ≤ 0x9fff) (hb1 : 0xfe00 ≤ b) (hb2 : b ≤ 0xfe9f) :
    (s.reg 0 &&& 0x80 ≠ 0 → s.mode = PpuM.Mode.draw →
      PpuM.vramRead s a = 0xff ∧ PpuM.oamRead s b = 0xff) ∧
    (s.reg 0 &&& 0x80 ≠ 0 → s.mode = PpuM.Mode.oamScan → PpuM.oamRead s b = 0xff) ∧
    (s.reg 0 &&& 0x80 ≠ 0 → s.mode ≠ PpuM.Mode.draw →
      PpuM.vramRead s a = s.vram (a - 0x8000) ∧
      (PpuM.vramWrite s a v).vram = fun j => if j = a - 0x8000 then v % 256 else s.vram j) ∧
    (s.reg 0 &&& 0x80 ≠ 0 → s.mode ≠ PpuM.Mode.draw → s.mode ≠ PpuM.Mode.oamScan →
      PpuM.oamRead s b = s.oam (b - 0xfe00) ∧
      (PpuM.oamWrite s b w).oam = fun j => if j = b - 0xfe00 then w % 256 else s.oam j) ∧
    (s.reg 0 &&& 0x80 = 0 →
      PpuM.vramRead s a = s.vram (a - 0x8000) ∧
      (PpuM.vramWrite s a v).vram = (fun j => if j = a - 0x8000 then v % 256 else s.vram j) ∧
      PpuM.oamRead s b = s.oam (b - 0xfe00) ∧
      (PpuM.oamWrite s b w).oam = fun j => if j = b - 0xfe00 then w % 256 else s.oam j) := by
  have hva : a &&& 0x1fff = a - 0x8000 := by
    have h13 : a &&& 0x1fff = a % 8192 := by
      have h := Nat.and_pow_two_sub_one_eq_mod a 13
      norm_num at h
      exact h
    omega
  have hvb : b &&& 0xff = b - 0xfe00 := by
    have h8 : b &&& 0xff = b % 256 := by
      have h := Nat.and_pow_two_sub_one_eq_mod b 8
      norm_num at h
      exact h
    omega
  refine ⟨?_, ?_, ?_, ?_, ?_⟩
  · intro hlcd hm
    constructor
    · simp [PpuM.vramRead, hlcd, hm]
    · simp [PpuM.oamRead, hlcd, hm]
  · intro hlcd hm
    simp [PpuM.oamRead, hlcd, hm]
  · intro hlcd hm
    constructor
    · simp [PpuM.vramRead, hlcd, hm, hva]
    · simp [PpuM.vramWrite, hlcd, hm, hva]
  · intro hlcd hm hm2
    constructor
    · simp [PpuM.oamRead, hlcd, hm, hm2, hvb]
    · simp [PpuM.oamWrite, hlcd, hm, hm2, hvb]
  · intro hlcd
    refine ⟨?_, ?_, ?_, ?_⟩
    · simp [PpuM.vramRead, hlcd, hva]
    · simp [PpuM.vramWrite, hlcd, hva]
    · simp [PpuM.oamRead, hlcd, hvb]
    · simp [PpuM.oamWrite, hlcd, hvb]

/-- Concrete PPU state for the C5 witness: LCD enabled, mode = Draw, VRAM
holding 0x42 at offset 5. -/
def c5state : PpuM.Ppu :=
  { PpuM.resetPpu with
    mode := PpuM.Mode.draw
    vram := fun i => if i = 5 then 0x42 else 0 }

/-- Witness for C5: in Draw mode the VRAM byte at 0x8005 reads as 0xFF even
though 0x42 is stored, and in HBlank it reads back as 0x42. -/
theorem c5_vram_oam_mode_blocking_witness :
    PpuM.vramRead c5state 0x8005 = 0xff ∧
    PpuM.vramRead { c5state with mode := PpuM.Mode.hblank } 0x8005 = 0x42 := by
  constructor
  · exact ((c5_vram_oam_mode_blocking c5state 0x8005 0xfe00 0 0
      (by decide) (by decide) (by decide) (by decide)).1 (by decide) rfl).1
  · have h := ((c5_vram_oam_mode_blocking { c5state with mode := PpuM.Mode.hblank }
      0x8005 0xfe00 0 0 (by decide) (by decide) (by decide) (by decide)).2.2.1
      (by decide) (by decide)).1
    rw [h]
    decide


/-! ## Theorems for claim C6 -/

/-- PPU right after the LCD is disabled (write 0 to LCDC) and `v` is written
to the DMA register: transfer started, bus locked. -/
def c6start (v : Nat) : PpuM.Ppu := PpuM.dmaWrite (PpuM.lcdcWrite PpuM.resetPpu 0) v

/-- While the DMA counter stays at most 640, the DMA loop only counts PPU
clocks (LCD disabled here): the state is unchanged except `dmaCycle`, and all
clocks are consumed. -/
theorem dmaLoopCount (busMem : Nat → Nat) :
    ∀ (n : Nat) (s : PpuM.Ppu), s.dmaInProgress = true → s.reg 0 &&& 0x80 = 0 →
      s.dmaCycle + n ≤ 640 →
      PpuM.dmaLoop busMem s n = ({ s with dmaCycle := s.dmaCycle + n }, 0) := by
  intro n
  induction n with
  | zero => intro s h1 h2 h3; rfl
  | succ n ih =>
    intro s h1 h2 h3
    obtain ⟨cim, sl, fr, md, sk, vr, om, stl, dip, dc, rg, bl, vb, si⟩ := s
    simp only at h1 h2 h3 ⊢
    subst h1
    have hlt : ¬ dc + 1 > 640 := by omega
    simp only [PpuM.dmaLoop, if_true, if_neg hlt, h2, ne_eq, not_true_eq_false,
      if_false, ite_self]
    have step := ih ⟨cim, sl, fr, md, sk, vr, om, stl, true, dc + 1, rg, bl, vb, si⟩
      rfl h2 (by simp only; omega)
    simp only at step
    rw [step]
    have harith : dc + 1 + n = dc + (n + 1) := by omega
    rw [harith]
  
/-- On the clock that takes the DMA counter to 641 the transfer completes:
`executeDma` runs and the loop stops consuming (DMA off, LCD off). -/
theorem dmaLoopFinish (busMem : Nat → Nat) :
    ∀ (n : Nat) (s : PpuM.Ppu), 1 ≤ n → s.dmaInProgress = true →
      s.reg 0 &&& 0x80 = 0 → s.dmaCycle + n = 641 →
      PpuM.dmaLoop busMem s n =
        (PpuM.executeDma busMem { s with dmaCycle := 641 }, 0) := by
  intro n
  induction n with
  | zero => intro s h0 h1 h2 h3; omega
  | succ n ih =>
    intro s h0 h1 h2 h3
    obtain ⟨cim, sl, fr, md, sk, vr, om, stl, dip, dc, rg, bl, vb, si⟩ := s
    simp only at h1 h2 h3 ⊢
    subst h1
    by_cases hn : n = 0
    · subst hn
      have hgt : dc + 1 > 640 := by omega
      have h641 : dc + 1 = 641 := by omega
      simp only [PpuM.dmaLoop, if_true, h641]
      have hregE : (PpuM.executeDma busMem
          ⟨cim, sl, fr, md, sk, vr, om, stl, true, 641, rg, bl, vb, si⟩).reg 0 &&& 0x80 = 0 := by
        simpa [PpuM.executeDma] using h2
      simp [PpuM.dmaLoop, hregE]
    · have hlt : ¬ dc + 1 > 640 := by omega
      simp only [PpuM.dmaLoop, if_true, if_neg hlt, h2, ne_eq, not_true_eq_false,
        if_false, ite_self]
      have step := ih ⟨cim, sl, fr, md, sk, vr, om, stl, true, dc + 1, rg, bl, vb, si⟩
        (by omega) rfl h2 (by simp only; omega)
      simp only at step
      rw [step]

/-- Memory image for the C6 counterexample: 2 below 0xE000, 1 from 0xE000 up. -/
def c6membm : Nat → Nat := fun a => if a < 0xe000 then 2 else 1

/-- C6 fails on the code at DMA value 0xE0: after 640 PPU clocks the bus is
still locked, DMA still in progress and OAM untouched (the claim asserts the
transfer takes exactly 640 clocks); completion happens on the 641st clock, and
the byte that then lands in OAM comes from base (0xE0 % 0xE0) << 8 = 0x0000
(value 2), not from 0xE0 << 8 = 0xE000 (value 1) as the claim asserts. -/
theorem c6_dma_counterexample :
    (PpuM.cycle c6membm (c6start 0xe0) 640).busLocked = true ∧
    (PpuM.cycle c6membm (c6start 0xe0) 640).dmaInProgress = true ∧
    (PpuM.cycle c6membm (c6start 0xe0) 640).oam 0 = 0 ∧
    (PpuM.cycle c6membm (c6start 0xe0) 641).busLocked = false ∧
    (PpuM.cycle c6membm (c6start 0xe0) 641).oam 0 = 2 ∧
    c6membm 0xe000 = 1 ∧ (2 : Nat) ≠ 1 := by
  decide

/-- C6 as amended: writing `v` to DMA locks the bus and starts a transfer
whose source base is `(v mod 0xE0) << 8`; the transfer is still in progress
with the bus locked and OAM untouched through the first 640 PPU clocks, and on
the 641st clock all 160 bytes land in OAM atomically, the transfer ends and
the bus is unlocked (the LCD is disabled here, so only the DMA loop runs). -/
theorem c6_dma_amended (v : Nat) (busMem : Nat → Nat) :
    (∀ k, k ≤ 640 →
      (PpuM.cycle busMem (c6start v) k).busLocked = true ∧
      (PpuM.cycle busMem (c6start v) k).dmaInProgress = true ∧
      ∀ i, (PpuM.cycle busMem (c6start v) k).oam i = (c6start v).oam i) ∧
    (PpuM.cycle busMem (c6start v) 641).busLocked = false ∧
    (PpuM.cycle busMem (c6start v) 641).dmaInProgress = false ∧
    (∀ i, i < 160 →
      (PpuM.cycle busMem (c6start v) 641).oam i = busMem ((v % 256 % 0xe0) <<< 8 + i) % 256) ∧
    (∀ i, 160 ≤ i →
      (PpuM.cycle busMem (c6start v) 641).oam i = (c6start v).oam i) := by
  have hd : (c6start v).dmaInProgress = true := rfl
  have hdc : (c6start v).dmaCycle = 0 := rfl
  have h1m : (c6start v).reg 0 = (PpuM.lcdcWrite PpuM.resetPpu 0).reg 0 := rfl
  have h2m : (PpuM.lcdcWrite PpuM.resetPpu 0).reg 0 = 0 := by decide
  have hr : (c6start v).reg 0 &&& 0x80 = 0 := by
    rw [h1m, h2m]
    decide
  have hreg6 : (c6start v).reg 6 = v % 256 := rfl
  constructor
  · intro k hk
    have hcy : PpuM.cycle busMem (c6start v) k =
        { c6start v with dmaCycle := (c6start v).dmaCycle + k } := by
      unfold PpuM.cycle
      rw [dmaLoopCount busMem k (c6start v) hd hr
        (show (c6start v).dmaCycle + k ≤ 640 by rw [hdc]; omega)]
      simp [hr]
    rw [hcy]
    exact ⟨rfl, rfl, fun i => rfl⟩
  · have hcy641 : PpuM.cycle busMem (c6start v) 641 =
        PpuM.executeDma busMem { c6start v with dmaCycle := 641 } := by
      unfold PpuM.cycle
      rw [dmaLoopFinish busMem 641 (c6start v) (by omega) hd hr
        (show (c6start v).dmaCycle + 641 = 641 by rw [hdc])]
      have hregE : (PpuM.executeDma busMem
          { c6start v with dmaCycle := 641 }).reg 0 &&& 0x80 = 0 := by
        have hE : (PpuM.executeDma busMem
            { c6start v with dmaCycle := 641 }).reg 0 = (c6start v).reg 0 := rfl
        rw [hE, h1m, h2m]
        decide
      simp [hregE]
    rw [hcy641]
    refine ⟨rfl, rfl, ?_, ?_⟩
    · intro i hi
      have hE6 : (PpuM.executeDma busMem
          { c6start v with dmaCycle := 641 }).oam i =
          if i < 160 then busMem ((v % 256 % 0xe0) <<< 8 + i) % 256
          else (c6start v).oam i := rfl
      rw [hE6, if_pos hi]
    · intro i hi
      have hnlt : ¬ i < 160 := by omega
      have hE6 : (PpuM.executeDma busMem
          { c6start v with dmaCycle := 641 }).oam i =
          if i < 160 then busMem ((v % 256 % 0xe0) <<< 8 + i) % 256
          else (c6start v).oam i := rfl
      rw [hE6, if_neg hnlt]

/-- Constant memory for the C6 witness. -/
def c6wmem : Nat → Nat := fun _ => 0x77

/-- Witness for the amended C6 at v = 0x12: still locked after 640 clocks, and
after 641 clocks OAM byte 0 holds the transferred value 0x77. -/
theorem c6_dma_amended_witness :
    (PpuM.cycle c6wmem (c6start 0x12) 640).busLocked = true ∧
    (PpuM.cycle c6wmem (c6start 0x12) 641).oam 0 = 0x77 := by
  constructor
  · exact ((c6_dma_amended 0x12 c6wmem).1 640 (by omega)).1
  · have h := (c6_dma_amended 0x12 c6wmem).2.2.2.1 0 (by omega)
    rw [h]
    decide

/-! ## Cartridge MBC3 (src/emulator/cartridges/CartridgeMbc3.ts) -/

namespace MbcM

/-- The MBC3 cartridge types (from the `CartridgeType` values the class
accepts). -/
inductive CartType
  | mbc3
  | mbc3_ram
  | mbc3_ram_battery
  | mbc3_timer_battery
  | mbc3_timer_ram_battery
deriving DecidableEq

/-- MBC3 state.  `ram` is the flat `Uint8Array`; the cached `ramBank` /
`romBank1` subarray views are represented by their indices (`ramBankIndex`,
`romBankIndex`), with bank-relative access computed as
`ramBankIndex * 0x2000 + offset`.  The wall clock `Date.now() / 1000 | 0` is
passed explicitly as `now` to the operations that read it. -/
structure Mbc3 where
  cartType : CartType
  ramLen : Nat
  ram : Nat → Nat
  ramBanksLen : Nat
  ramBankIndex : Nat
  romBanksLen : Nat
  romBankIndex : Nat
  secondsLatched : Int
  minutesLatched : Int
  hoursLatched : Int
  daysLatched : Int
  secondsCurrent : Int
  minutesCurrent : Int
  hoursCurrent : Int
  daysCurrent : Int
  halt : Bool
  ramEnable : Bool
  registerSelect : Nat
  lastLatch : Nat
  referenceTimestamp : Int

/-- `materializeClock`: derive the running time fields from
`now - referenceTimestamp`.  The source's `time -= this.daysCurrent * 3600`
(instead of `hoursCurrent * 3600`) is kept as is; `| 0` divisions are JS
truncation toward zero (`Int.tdiv`). -/
def materializeClock (now : Int) (s : Mbc3) : Mbc3 :=
  let time := now - s.referenceTimestamp
  let time := if time < 0 then 0 else time
  let daysCurrent := time.tdiv (24 * 3600)
  let time := time - daysCurrent * 24 * 3600
  let hoursCurrent := time.tdiv 3600
  let time := time - daysCurrent * 3600
  let minutesCurrent := time.tdiv 60
  let time := time - minutesCurrent * 60
  { s with daysCurrent := daysCurrent, hoursCurrent := hoursCurrent,
           minutesCurrent := minutesCurrent, secondsCurrent := time }

/-- `updateClock`: shift `reference` so the current fields are reflected going
forward (JS `%` is `Int.tmod`). -/
def updateClock (now : Int) (s : Mbc3) : Mbc3 :=
  let time := (jsAnd s.daysCurrent 0x1ff) * 24 * 3600 + (s.hoursCurrent.tmod 24) * 3600 +
    (s.minutesCurrent.tmod 60) * 60 + s.secondsCurrent.tmod 60
  { s with referenceTimestamp := now - time }

/-- `latch`: materialise the running clock and copy it into the latched
registers. -/
def latch (now : Int) (s : Mbc3) : Mbc3 :=
  let s := materializeClock now s
  { s with secondsLatched := s.secondsCurrent, minutesLatched := s.minutesCurrent,
           hoursLatched := s.hoursCurrent, daysLatched := s.daysCurrent }

/-- `readRegister` (the RTC register file; anything outside 0x08..0x0C reads
as 0). -/
def readRegister (s : Mbc3) (register : Nat) : Int :=
  if register = 0x08 then s.secondsLatched
  else if register = 0x09 then s.minutesLatched
  else if register = 0x0a then s.hoursLatched
  else if register = 0x0b then jsAnd s.daysLatched 0xff
  else if register = 0x0c then
    jsOr (jsOr (jsShru (jsAnd s.daysLatched 0x100) 8) (if s.halt then 0x40 else 0))
      (if s.daysLatched > 0x1ff then 0x80 else 0)
  else 0x00

/-- `writeRegister`: note the source's masks `value & 60` (seconds, minutes)
and `value & 24` (hours), and that the final `updateClock` guard in the 0x0C
case tests the freshly written halt bit. -/
def writeRegister (now : Int) (s : Mbc3) (register : Nat) (value : Nat) : Mbc3 :=
  if register = 0x08 then
    let s := if s.halt then s else materializeClock now s
    let s := { s with secondsCurrent := ((value &&& 60 : Nat) : Int) }
    if s.halt then s else updateClock now s
  else if register = 0x09 then
    let s := if s.halt then s else materializeClock now s
    let s := { s with minutesCurrent := ((value &&& 60 : Nat) : Int) }
    if s.halt then s else updateClock now s
  else if register = 0x0a then
    let s := if s.halt then s else materializeClock now s
    let s := { s with hoursCurrent := ((value &&& 24 : Nat) : Int) }
    if s.halt then s else updateClock now s
  else if register = 0x0b then
    let s := if s.halt then s else materializeClock now s
    let s := { s with daysCurrent := jsOr (jsAnd s.daysCurrent (jsNot 0xff)) (value : Int) }
    if s.halt then s else updateClock now s
  else if register = 0x0c then
    let s := if s.halt then s else materializeClock now s
    let s := { s with halt := value &&& 0x40 != 0,
                      daysCurrent := jsOr (jsAnd s.daysCurrent 0xff) (((value &&& 0x01) <<< 8 : Nat) : Int) }
    if s.halt then s else updateClock now s
  else s

/-- `readBankRam` handler (0xA000..0xBFFF). -/
def readBankRam (s : Mbc3) (address : Nat) : Int :=
  if !s.ramEnable then 0xff
  else if s.registerSelect > 0 then readRegister s s.registerSelect
  else ((s.ram (s.ramBankIndex * 0x2000 + (address - 0xa000)) : Nat) : Int)

/-- `writeRamEnable` handler (0x0000..0x1FFF): enabled only by the exact
value 0x0A, and only when the cartridge has RAM. -/
def writeRamEnable (s : Mbc3) (value : Nat) : Mbc3 :=
  { s with ramEnable := value == 0x0a && !(s.ramLen == 0) }

/-- `writeRamBankIndex` handler (0x4000..0x5FFF).  (For `value ≤ 3` the
source computes `value % ramBanks.length`, which is NaN when there are no RAM
banks; that corner is outside the claims and maps here to Lean's `% 0`.) -/
def writeRamBankIndex (s : Mbc3) (value : Nat) : Mbc3 :=
  if value ≤ 0x03 then
    { s with ramBankIndex := value % s.ramBanksLen, registerSelect := 0 }
  else
    { s with registerSelect := value }

/-- `writeLatch` handler (0x6000..0x7FFF): latch on a 0 → 1 edge. -/
def writeLatch (now : Int) (s : Mbc3) (value : Nat) : Mbc3 :=
  let s := if value = 0x01 ∧ s.lastLatch = 0x00 then latch now s else s
  { s with lastLatch := value }

/-- `writeBankRam` handler (0xA000..0xBFFF). -/
def writeBankRam (now : Int) (s : Mbc3) (address : Nat) (value : Nat) : Mbc3 :=
  if !s.ramEnable then s
  else if s.registerSelect > 0 then writeRegister now s s.registerSelect value
  else { s with ram := fun i =>
    if i = s.ramBankIndex * 0x2000 + (address - 0xa000) then value % 256 else s.ram i }

/-- `getRam`: for battery-backed types, the RAM bytes followed by the
little-endian 32-bit reference timestamp. -/
def getRam (s : Mbc3) : Option (List Nat) :=
  match s.cartType with
  | .mbc3_ram_battery | .mbc3_timer_battery | .mbc3_timer_ram_battery =>
    let u := toU32 s.referenceTimestamp
    some (((List.range s.ramLen).map s.ram) ++
      [u % 256, (u >>> 8) % 256, (u >>> 16) % 256, (u >>> 24) % 256])
  | _ => none

/-- `reset(savedRam?)`: reinitialise the banking state; for battery-backed
types restore RAM and the reference timestamp from a save of the exact
expected length (reassembled with `|`, hence as a signed 32-bit value) and
ignore anything else; for other types zero RAM and restart the reference; then
latch. -/
def reset (now : Int) (s : Mbc3) (savedRam : Option (List Nat)) : Mbc3 :=
  let s := { s with romBankIndex := 0x01, ramBankIndex := 0x00,
                    halt := false, ramEnable := false, registerSelect := 0,
                    lastLatch := 0xff }
  let s :=
    match s.cartType with
    | .mbc3_ram_battery | .mbc3_timer_battery | .mbc3_timer_ram_battery =>
      match savedRam with
      | some saved =>
        if saved.length = s.ramLen + 4 then
          { s with
            ram := fun i => if i < s.ramLen then saved.getD i 0 else s.ram i,
            referenceTimestamp := toI32 ((saved.getD s.ramLen 0) |||
              ((saved.getD (s.ramLen + 1) 0) <<< 8) |||
              ((saved.getD (s.ramLen + 2) 0) <<< 16) |||
              ((saved.getD (s.ramLen + 3) 0) <<< 24)) }
        else s
      | none => s
    | _ => { s with ram := fun _ => 0, referenceTimestamp := now }
  latch now s

end MbcM

/-! ## Theorems for claim C7 -/

/-- A populated MBC3 cartridge state used by the concrete theorems: 8 KiB of
battery-backed RAM holding 0x55 everywhere, RAM disabled, no RTC activity. -/
def c7state : MbcM.Mbc3 :=
  { cartType := .mbc3_ram_battery, ramLen := 0x2000, ram := fun _ => 0x55,
    ramBanksLen := 1, ramBankIndex := 0, romBanksLen := 2, romBankIndex := 1,
    secondsLatched := 0, minutesLatched := 0, hoursLatched := 0, daysLatched := 0,
    secondsCurrent := 0, minutesCurrent := 0, hoursCurrent := 0, daysCurrent := 0,
    halt := false, ramEnable := false, registerSelect := 0, lastLatch := 0xff,
    referenceTimestamp := 0 }

/-- C7 fails on the code at value 0x1A: its low nibble is 0x0A, so the claim
says RAM becomes enabled, but `writeRamEnable` compares the whole byte with
0x0A and leaves RAM disabled — a subsequent read returns 0xFF, not the stored
0x55. -/
theorem c7_ram_enable_counterexample :
    (0x1a &&& 0x0f : Nat) = 0x0a ∧
    0 < c7state.ramLen ∧
    (MbcM.writeRamEnable c7state 0x1a).ramEnable = false ∧
    MbcM.readBankRam (MbcM.writeRamEnable c7state 0x1a) 0xa000 = 0xff ∧
    c7state.ram 0 = 0x55 ∧ (0xff : Int) ≠ 0x55 := by
  decide

/-- C7 as amended: a write to 0x0000..0x1FFF enables cartridge RAM if and only
if the written byte is exactly 0x0A and the cartridge has RAM (any other value
disables it); while disabled, every read from 0xA000..0xBFFF returns 0xFF and
every write there is ignored. -/
theorem c7_ram_enable_amended (s : MbcM.Mbc3) (v a w : Nat) (now : Int)
    (ha : 0xa000 ≤ a ∧ a < 0xc000) :
    ((MbcM.writeRamEnable s v).ramEnable = true ↔ (v = 0x0a ∧ 0 < s.ramLen)) ∧
    (s.ramEnable = false →
      MbcM.readBankRam s a = 0xff ∧ MbcM.writeBankRam now s a w = s) := by
  constructor
  · simp [MbcM.writeRamEnable, Nat.pos_iff_ne_zero]
  · intro hen
    constructor
    · simp [MbcM.readBankRam, hen]
    · simp [MbcM.writeBankRam, hen]

/-- Witness for the amended C7: with RAM disabled a read gives 0xFF, and the
exact value 0x0A enables RAM. -/
theorem c7_ram_enable_amended_witness :
    MbcM.readBankRam c7state 0xa123 = 0xff ∧
    (MbcM.writeRamEnable c7state 0x0a).ramEnable = true := by
  constructor
  · exact ((c7_ram_enable_amended c7state 0 0xa123 0 0 (by omega)).2 rfl).1
  · exact (c7_ram_enable_amended c7state 0x0a 0xa123 0 0 (by omega)).1.mpr
      ⟨rfl, by decide⟩

/-! ## Theorems for claim C8 -/

/-- State with RAM enabled, the RTC seconds register (0x08) selected and the
clock halted; the latched seconds are 0. -/
def c8state : MbcM.Mbc3 :=
  { c7state with ramEnable := true, registerSelect := 0x08, halt := true }

/-- C8 fails on the code: with the seconds register selected, writing 5 and
immediately reading back yields 0 (the previously latched seconds), not
5 mod 60 = 5 — reads return the latched register file, which a write does not
touch.  (The write lands in the running field, and even there as
5 & 60 = 4, the source masking with `& 60` rather than modulo 60.) -/
theorem c8_rtc_readback_counterexample :
    MbcM.readBankRam (MbcM.writeBankRam 0 c8state 0xa000 5) 0xa000 = 0 ∧
    (5 : Nat) % 60 = 5 ∧ ((0 : Int) ≠ 5) ∧
    (MbcM.writeBankRam 0 c8state 0xa000 5).secondsCurrent = 4 := by
  decide

/-- C8 as amended: an RTC register write is not visible to an immediate read:
for selectors 0x08..0x0B the read still returns the latched field from before
the write, and for 0x0C only the halt bit (0x40) of the read-back reflects the
written value while day-high and carry come from the latched day counter; the
write updates the running field instead, masked with the source's masks
(seconds: value & 60). -/
theorem c8_rtc_write_read_amended (s : MbcM.Mbc3) (now : Int) (a v : Nat)
    (hen : s.ramEnable = true) :
    (s.registerSelect = 0x08 ∨ s.registerSelect = 0x09 ∨ s.registerSelect = 0x0a ∨
        s.registerSelect = 0x0b →
      MbcM.readBankRam (MbcM.writeBankRam now s a v) a = MbcM.readBankRam s a) ∧
    (s.registerSelect = 0x0c →
      MbcM.readBankRam (MbcM.writeBankRam now s a v) a =
        jsOr (jsOr (jsShru (jsAnd s.daysLatched 0x100) 8)
          (if v &&& 0x40 ≠ 0 then 0x40 else 0))
          (if s.daysLatched > 0x1ff then 0x80 else 0)) ∧
    (s.registerSelect = 0x08 →
      (MbcM.writeBankRam now s a v).secondsCurrent = ((v &&& 60 : Nat) : Int)) := by
  refine ⟨?_, ?_, ?_⟩
  · intro hr
    rcases hr with hr | hr | hr | hr <;>
      by_cases hh : s.halt <;>
        simp [MbcM.writeBankRam, MbcM.writeRegister, MbcM.readBankRam, MbcM.readRegister,
          MbcM.materializeClock, MbcM.updateClock, hen, hr, hh]
  · intro hr
    by_cases hh : s.halt <;> by_cases hb : v &&& 0x40 = 0 <;>
      simp [MbcM.writeBankRam, MbcM.writeRegister, MbcM.readBankRam, MbcM.readRegister,
        MbcM.materializeClock, MbcM.updateClock, hen, hr, hh, hb]
  · intro hr
    by_cases hh : s.halt <;>
      simp [MbcM.writeBankRam, MbcM.writeRegister,
        MbcM.materializeClock, MbcM.updateClock, hen, hr, hh]

/-- State for the C8 witness: seconds selected, latched seconds 33, running
clock halted. -/
def c8wstate : MbcM.Mbc3 :=
  { c8state with secondsLatched := 33 }

/-- Witness for the amended C8: writing 5 to the seconds register leaves the
read-back at the latched 33 and sets the running seconds to 5 & 60 = 4. -/
theorem c8_rtc_write_read_amended_witness :
    MbcM.readBankRam (MbcM.writeBankRam 7 c8wstate 0xa000 5) 0xa000 = 33 ∧
    (MbcM.writeBankRam 7 c8wstate 0xa000 5).secondsCurrent = 4 := by
  constructor
  · have h := (c8_rtc_write_read_amended c8wstate 7 0xa000 5 rfl).1 (Or.inl rfl)
    rw [h]
    decide
  · have h := (c8_rtc_write_read_amended c8wstate 7 0xa000 5 rfl).2.2 rfl
    rw [h]
    decide

/-! ## Theorems for claim C10 -/

/-- C10: writing a selector in 0x04..0x07 or ≥ 0x0D to 0x4000..0x5FFF latches
it verbatim in `registerSelect`; with RAM enabled, every subsequent read from
0xA000..0xBFFF then returns 0x00 (the `readRegister` default, neither 0xFF nor
RAM contents) and every write there is silently discarded. -/
theorem c10_undefined_selector_reads_zero (s : MbcM.Mbc3) (v a w : Nat) (now : Int)
    (hv : (0x04 ≤ v ∧ v ≤ 0x07) ∨ 0x0d ≤ v) (ha : 0xa000 ≤ a ∧ a < 0xc000) :
    (MbcM.writeRamBankIndex s v).registerSelect = v ∧
    (s.ramEnable = true →
      MbcM.readBankRam (MbcM.writeRamBankIndex s v) a = 0 ∧
      MbcM.writeBankRam now (MbcM.writeRamBankIndex s v) a w =
        MbcM.writeRamBankIndex s v) := by
  have hgt : ¬ v ≤ 0x03 := by omega
  have hpos : 0 < v := by omega
  have h8 : ¬ v = 0x08 := by omega
  have h9 : ¬ v = 0x09 := by omega
  have h10 : ¬ v = 0x0a := by omega
  have h11 : ¬ v = 0x0b := by omega
  have h12 : ¬ v = 0x0c := by omega
  refine ⟨?_, fun hen => ⟨?_, ?_⟩⟩
  · simp [MbcM.writeRamBankIndex, hgt]
  · simp [MbcM.writeRamBankIndex, hgt, MbcM.readBankRam, hen, MbcM.readRegister,
      hpos, h8, h9, h10, h11, h12]
  · simp [MbcM.writeRamBankIndex, hgt, MbcM.writeBankRam, hen, MbcM.writeRegister,
      hpos, h8, h9, h10, h11, h12]

/-- Witness for C10 at selector 0x05 on a RAM-enabled cartridge holding 0x55:
the read yields 0x00. -/
theorem c10_undefined_selector_reads_zero_witness :
    (MbcM.writeRamBankIndex { c7state with ramEnable := true } 0x05).registerSelect = 0x05 ∧
    MbcM.readBankRam (MbcM.writeRamBankIndex { c7state with ramEnable := true } 0x05) 0xa000 = 0 := by
  constructor
  · exact (c10_undefined_selector_reads_zero { c7state with ramEnable := true }
      0x05 0xa000 0 0 (by omega) (by omega)).1
  · exact ((c10_undefined_selector_reads_zero { c7state with ramEnable := true }
      0x05 0xa000 0 0 (by omega) (by omega)).2 rfl).1

/-! ## Theorems for claim C9 -/

/-- Reassembling a 32-bit value from its four little-endian bytes with `|`
and `<<` recovers the value. -/
theorem lorBytes (u : Nat) (hu : u < 4294967296) :
    (u % 256) ||| (((u >>> 8) % 256) <<< 8) ||| (((u >>> 16) % 256) <<< 16) |||
      (((u >>> 24) % 256) <<< 24) = u := by
  apply Nat.eq_of_testBit_eq
  intro i
  have h256 : (256 : Nat) = 2 ^ 8 := by norm_num
  simp only [Nat.testBit_lor, Nat.testBit_shiftLeft, h256, Nat.testBit_mod_two_pow,
    Nat.testBit_shiftRight]
  rcases Nat.lt_or_ge i 8 with hi | hi
  · have d1 : ¬ i ≥ 8 := by omega
    have d2 : ¬ i ≥ 16 := by omega
    have d3 : ¬ i ≥ 24 := by omega
    simp [hi, d1, d2, d3]
  rcases Nat.lt_or_ge i 16 with hi2 | hi2
  · have d0 : ¬ i < 8 := by omega
    have d2 : ¬ i ≥ 16 := by omega
    have d3 : ¬ i ≥ 24 := by omega
    have e1 : i - 8 < 8 := by omega
    have e2 : 8 + (i - 8) = i := by omega
    simp [hi, d0, d2, d3, e1, e2]
  rcases Nat.lt_or_ge i 24 with hi3 | hi3
  · have d0 : ¬ i < 8 := by omega
    have d1 : ¬ i ≥ 24 := by omega
    have e1 : i - 16 < 8 := by omega
    have e2 : 16 + (i - 16) = i := by omega
    simp [hi, hi2, d0, d1, e1, e2]
  rcases Nat.lt_or_ge i 32 with hi4 | hi4
  · have d0 : ¬ i < 8 := by omega
    have e1 : i - 24 < 8 := by omega
    have e2 : 24 + (i - 24) = i := by omega
    have e3 : ¬ i - 8 < 8 := by omega
    have e4 : ¬ i - 16 < 8 := by omega
    simp [hi, hi2, hi3, d0, e1, e2, e3, e4]
  · have d0 : ¬ i < 8 := by omega
    have e1 : ¬ i - 8 < 8 := by omega
    have e2 : ¬ i - 16 < 8 := by omega
    have e3 : ¬ i - 24 < 8 := by omega
    have hz : u.testBit i = false := by
      apply Nat.testBit_lt_two_pow
      calc u < 4294967296 := hu
        _ ≤ 2 ^ i := by
          have : (4294967296 : Nat) = 2 ^ 32 := by norm_num
          rw [this]
          exact Nat.pow_le_pow_right (by norm_num) hi4
    simp [d0, e1, e2, e3, hz]

/-- The 32-bit unsigned image of an integer is below 2^32. -/
theorem toU32_lt (x : Int) : toU32 x < 4294967296 := by
  unfold toU32
  omega

/-- Signed reinterpretation inverts the unsigned image on int32 values. -/
theorem toI32_toU32 (x : Int) (h1 : -2147483648 ≤ x) (h2 : x < 2147483648) :
    toI32 (toU32 x) = x := by
  unfold toI32 toU32
  split <;> omega

/-- C9: for a battery-backed MBC3 state with an int32 reference timestamp (the
only values the code ever stores), `getRam` produces RAM bytes followed by the
32-bit little-endian reference, and feeding that array back through `reset`
restores the RAM contents and the reference byte-for-byte; a saved array whose
length differs from RAM size + 4 is ignored. -/
theorem c9_save_load_roundtrip (s : MbcM.Mbc3) (now : Int)
    (hbat : s.cartType = .mbc3_ram_battery ∨ s.cartType = .mbc3_timer_battery ∨
      s.cartType = .mbc3_timer_ram_battery)
    (hlo : -2147483648 ≤ s.referenceTimestamp)
    (hhi : s.referenceTimestamp < 2147483648) :
    (∀ sv, MbcM.getRam s = some sv → sv.length = s.ramLen + 4) ∧
    (∀ i, i < s.ramLen → (MbcM.reset now s (MbcM.getRam s)).ram i = s.ram i) ∧
    (MbcM.reset now s (MbcM.getRam s)).referenceTimestamp = s.referenceTimestamp ∧
    (∀ saved : List Nat, saved.length ≠ s.ramLen + 4 →
      (MbcM.reset now s (some saved)).ram = s.ram ∧
      (MbcM.reset now s (some saved)).referenceTimestamp = s.referenceTimestamp) := by
  have hsave : MbcM.getRam s = some (((List.range s.ramLen).map s.ram) ++
      [toU32 s.referenceTimestamp % 256, (toU32 s.referenceTimestamp >>> 8) % 256,
       (toU32 s.referenceTimestamp >>> 16) % 256, (toU32 s.referenceTimestamp >>> 24) % 256]) := by
    rcases hbat with h | h | h <;> simp [MbcM.getRam, h]
  have hlen : (((List.range s.ramLen).map s.ram) ++
      [toU32 s.referenceTimestamp % 256, (toU32 s.referenceTimestamp >>> 8) % 256,
       (toU32 s.referenceTimestamp >>> 16) % 256,
       (toU32 s.referenceTimestamp >>> 24) % 256]).length = s.ramLen + 4 := by
    simp
  refine ⟨?_, ?_, ?_, ?_⟩
  · intro sv hsv
    rw [hsave] at hsv
    cases hsv
    exact hlen
  · intro i hi
    rw [hsave]
    have hilen : i < (List.map s.ram (List.range s.ramLen)).length := by simp [hi]
    rcases hbat with h | h | h <;>
      · simp [MbcM.reset, MbcM.latch, MbcM.materializeClock, h, hlen, hi,
          List.getD_eq_getElem?_getD]
        rw [List.getElem?_append_left hilen, List.getElem?_map, List.getElem?_range hi]
        rfl
  · rw [hsave]
    have hb0 : (((List.range s.ramLen).map s.ram) ++
        [toU32 s.referenceTimestamp % 256, (toU32 s.referenceTimestamp >>> 8) % 256,
         (toU32 s.referenceTimestamp >>> 16) % 256,
         (toU32 s.referenceTimestamp >>> 24) % 256]).getD s.ramLen 0 =
        toU32 s.referenceTimestamp % 256 := by
      rw [List.getD_append_right _ _ _ _ (by simp)]
      simp
    have hb1 : (((List.range s.ramLen).map s.ram) ++
        [toU32 s.referenceTimestamp % 256, (toU32 s.referenceTimestamp >>> 8) % 256,
         (toU32 s.referenceTimestamp >>> 16) % 256,
         (toU32 s.referenceTimestamp >>> 24) % 256]).getD (s.ramLen + 1) 0 =
        (toU32 s.referenceTimestamp >>> 8) % 256 := by
      rw [List.getD_append_right _ _ _ _ (by simp)]
      simp
    have hb2 : (((List.range s.ramLen).map s.ram) ++
        [toU32 s.referenceTimestamp % 256, (toU32 s.referenceTimestamp >>> 8) % 256,
         (toU32 s.referenceTimestamp >>> 16) % 256,
         (toU32 s.referenceTimestamp >>> 24) % 256]).getD (s.ramLen + 2) 0 =
        (toU32 s.referenceTimestamp >>> 16) % 256 := by
      rw [List.getD_append_right _ _ _ _ (by simp)]
      simp
    have hb3 : (((List.range s.ramLen).map s.ram) ++
        [toU32 s.referenceTimestamp % 256, (toU32 s.referenceTimestamp >>> 8) % 256,
         (toU32 s.referenceTimestamp >>> 16) % 256,
         (toU32 s.referenceTimestamp >>> 24) % 256]).getD (s.ramLen + 3) 0 =
        (toU32 s.referenceTimestamp >>> 24) % 256 := by
      rw [List.getD_append_right _ _ _ _ (by simp)]
      simp
    rcases hbat with h | h | h <;>
      · simp only [MbcM.reset, MbcM.latch, MbcM.materializeClock, h, hlen, if_pos rfl,
          hb0, hb1, hb2, hb3]
        rw [lorBytes (toU32 s.referenceTimestamp) (toU32_lt _)]
        exact toI32_toU32 _ hlo hhi
  · intro saved hne
    rcases hbat with h | h | h <;>
      simp [MbcM.reset, MbcM.latch, MbcM.materializeClock, h, hne]

/-- Concrete battery-backed cartridge for the C9 witness: two RAM bytes 7 and
9, reference timestamp 123456789. -/
def c9state : MbcM.Mbc3 :=
  { c7state with
    cartType := .mbc3_timer_ram_battery
    ramLen := 2
    ram := fun i => if i = 0 then 7 else if i = 1 then 9 else 3
    referenceTimestamp := 123456789 }

/-- Witness for C9: the save/load round trip restores both RAM bytes and the
reference timestamp. -/
theorem c9_save_load_roundtrip_witness :
    (MbcM.reset 999 c9state (MbcM.getRam c9state)).ram 0 = 7 ∧
    (MbcM.reset 999 c9state (MbcM.getRam c9state)).ram 1 = 9 ∧
    (MbcM.reset 999 c9state (MbcM.getRam c9state)).referenceTimestamp = 123456789 := by
  have h := c9_save_load_roundtrip c9state 999 (Or.inr (Or.inr rfl))
    (by decide) (by decide)
  refine ⟨?_, ?_, ?_⟩
  · rw [h.2.1 0 (by decide)]
    decide
  · rw [h.2.1 1 (by decide)]
    decide
  · rw [h.2.2.1]
    decide
